import Mathlib

/-!
Shallow embedding of the authentication and authorization core of the
task-management API (src/main.py and src/services/User_service.py).

Machine time is modelled as Nat seconds.  The HTTP layer's
HTTPException(status_code, detail) is modelled by the structure
HTTPException below; a handler that can raise it returns Except.
-/

namespace TaskApp

/-- Models HTTPException(status_code=..., detail=...) from fastapi as used
throughout src/main.py: an error is a status code together with a detail
string, both of which are part of the response the caller sees. -/
structure HTTPException where
  status_code : Nat
  detail : String
deriving DecidableEq, Repr

/-- Models class UserRole(str, Enum) in src/main.py (values admin, user, guest). -/
inductive UserRole where
  | admin
  | user
  | guest
deriving DecidableEq, Repr

/-- Models class TaskStatus(str, Enum) in src/main.py. -/
inductive TaskStatus where
  | pending
  | in_progress
  | completed
deriving DecidableEq, Repr

/-- Models class TaskPriority(str, Enum) in src/main.py. -/
inductive TaskPriority where
  | low
  | medium
  | high
deriving DecidableEq, Repr

/-- Models the users table row (class User(Base) in src/main.py):
id, email, username, hashed_password, role, is_active, created_at, updated_at. -/
structure User where
  id : Nat
  email : String
  username : String
  hashed_password : String
  role : UserRole
  is_active : Bool
  created_at : Nat
  updated_at : Nat
deriving DecidableEq, Repr

/-- Models the tasks table row (class Task(Base) in src/main.py). -/
structure DbTask where
  id : Nat
  title : String
  description : Option String
  status : TaskStatus
  priority : TaskPriority
  completed : Bool
  due_date : Option Nat
  owner_id : Nat
  created_at : Nat
  updated_at : Nat
deriving DecidableEq, Repr

/-- Models the database state: the users and tasks tables, each a list of
rows in insertion order (SQLAlchemy query / first() scans in this order). -/
structure DB where
  users : List User
  tasks : List DbTask
deriving DecidableEq, Repr

/-! ## Password hasher (src/main.py lines 194-199, delegating to passlib
CryptContext(schemes=[bcrypt])). -/

/-- Models the opaque modular-crypt string that passlib bcrypt produces for
password p under per-call salt s.  The one-way bcrypt digest itself cannot be
embedded; the embedding keeps the recognizable format marker, the embedded
salt and a digest that determines (salt, password). -/
def bcryptHashStr (salt : Nat) (password : String) : String :=
  "$2b$12$" ++ toString salt ++ "$" ++ password

/-- Reads a nonempty digit string as a number; none on a nonempty
non-digit or an empty list. -/
def digitsToNat? (cs : List Char) : Option Nat :=
  if cs.isEmpty then none
  else
    cs.foldl
      (fun acc c =>
        match acc with
        | none => none
        | some n => if c.isDigit then some (n * 10 + (c.toNat - 48)) else none)
      (some 0)

/-- The number a decimal digit string denotes, most significant digit
first, folded onto an initial accumulator. -/
def digitsVal (a : Nat) (cs : List Char) : Nat :=
  cs.foldl (fun n c => n * 10 + (c.toNat - 48)) a

/-- Models passlib's parsing of a stored hash: a stored string is recognized
as a bcrypt hash exactly when it is well-formed; the embedded salt is
recovered from it.  Any other string is an unknown hash to the context. -/
def parseBcrypt (h : String) : Option Nat :=
  if ("$2b$12$".data).isPrefixOf h.data then
    digitsToNat? ((h.data.drop 7).takeWhile (fun c => c ≠ Char.ofNat 36))
  else none

/-- Models the error passlib raises: UnknownHashError (a ValueError) when the
stored hash matches no configured scheme. -/
inductive PasslibError where
  | unknownHash
deriving DecidableEq, Repr

/-- Models passlib CryptContext(schemes=[bcrypt]).verify(plain, hashed):
the stored hash is first identified; an unrecognized or malformed stored hash
raises UnknownHashError, it is not reported as a non-match.  For a recognized
hash the digest is re-derived from the embedded salt and the candidate
password and compared. -/
def cryptContextVerify (plain : String) (hashed : String) : Except PasslibError Bool :=
  match parseBcrypt hashed with
  | some s => .ok (hashed == bcryptHashStr s plain)
  | none => .error .unknownHash

/-- Models verify_password in src/main.py: it returns
pwd_context.verify(plain_password, hashed_password) directly, with no
exception handling, so a passlib error propagates to the caller. -/
def verify_password (plain_password : String) (hashed_password : String) :
    Except PasslibError Bool :=
  cryptContextVerify plain_password hashed_password

/-- Models get_password_hash in src/main.py: pwd_context.hash(password).
The per-call random salt is made an explicit argument. -/
def get_password_hash (password : String) (salt : Nat) : String :=
  bcryptHashStr salt password

/-! ## Token codec (src/main.py lines 202-230, delegating to PyJWT). -/

/-- Models the claim fields decode_token reads from a payload with
payload.get: each is None when absent. -/
structure Claims where
  sub : Option Nat
  username : Option String
  role : Option String
deriving DecidableEq, Repr

/-- Models an encoded JWT as the data it determines: the claim set, the exp
claim, and whether its signature verifies under the server secret
(jwt.encode always signs correctly; a tampered or forged string does not
verify). -/
structure Token where
  claims : Claims
  exp : Nat
  validSignature : Bool
deriving DecidableEq, Repr

/-- Models the errors PyJWT raises from jwt.decode, all subclasses of
InvalidTokenError: signature/format failure, and ExpiredSignatureError. -/
inductive JwtError where
  | invalidSignature
  | expired
deriving DecidableEq, Repr

/-- Models jwt.decode(token, SECRET_KEY, algorithms=[HS256]) from PyJWT:
the signature is verified first; then the exp claim is validated against the
current time with zero leeway, failing with ExpiredSignatureError exactly
when exp is at or before now. -/
def jwtDecode (t : Token) (now : Nat) : Except JwtError Claims :=
  if !t.validSignature then .error .invalidSignature
  else if t.exp ≤ now then .error .expired
  else .ok t.claims

/-- Models create_access_token in src/main.py: the payload is the given data
plus an exp claim set to utcnow() + expires_delta (or a 15-minute default);
jwt.encode then signs it, so the produced token has a valid signature. -/
def create_access_token (data : Claims) (expires_delta : Option Nat) (now : Nat) : Token :=
  let expire := match expires_delta with
    | some d => now + d
    | none => now + 15 * 60
  { claims := data, exp := expire, validSignature := true }

/-- Models the TokenData pydantic model in src/main.py. -/
structure TokenData where
  user_id : Option Nat
  username : Option String
  role : Option String
deriving DecidableEq, Repr

/-- The HTTPException raised by decode_token for any jwt.decode failure and
for a payload without a sub claim: 401, Invalid authentication credentials. -/
def invalidCredentials : HTTPException :=
  { status_code := 401, detail := "Invalid authentication credentials" }

/-- Models decode_token in src/main.py: jwt.decode, then extraction of sub,
username and role; a missing sub, like any InvalidTokenError, becomes a 401
with detail Invalid authentication credentials. -/
def decode_token (t : Token) (now : Nat) : Except HTTPException TokenData :=
  match jwtDecode t now with
  | .error _ => .error invalidCredentials
  | .ok c =>
    match c.sub with
    | none => .error invalidCredentials
    | some uid => .ok { user_id := some uid, username := c.username, role := c.role }

/-! ## Identity resolution (src/main.py lines 233-250). -/

/-- The HTTPException raised by get_current_user when the subject id matches
no user row: 401, User not found. -/
def userGone : HTTPException :=
  { status_code := 401, detail := "User not found" }

/-- The HTTPException raised by get_current_user when the resolved user row
has is_active false: 403, Inactive user. -/
def inactiveUser : HTTPException :=
  { status_code := 403, detail := "Inactive user" }

/-- Models get_current_user in src/main.py: decode the bearer token, look the
user up by the decoded user_id in the current users table, reject a missing
row with 401 User not found and an inactive row with 403 Inactive user,
otherwise return the freshly read row. -/
def get_current_user (t : Token) (db : DB) (now : Nat) : Except HTTPException User :=
  match decode_token t now with
  | .error e => .error e
  | .ok td =>
    match db.users.find? (fun u => td.user_id == some u.id) with
    | none => .error userGone
    | some u => if !u.is_active then .error inactiveUser else .ok u

/-- Models from the spec: account deactivation, i.e. setting is_active to
false on the stored Credential Record of the given user.  The is_active
column exists in src/main.py but no src/ operation flips it; the spec
(sections 4.2 and 8) treats deactivation as a store update of is_active. -/
def deactivate (db : DB) (uid : Nat) : DB :=
  { db with users := db.users.map (fun u => if u.id = uid then { u with is_active := false } else u) }

/-! ## Access control guard (src/main.py lines 253-258). -/

/-- The HTTPException raised by check_user_permission: 403, Insufficient
permissions. -/
def insufficientPermissions : HTTPException :=
  { status_code := 403, detail := "Insufficient permissions" }

/-- Models check_user_permission in src/main.py: required_role defaults to
None (modelled as none), in which case the truthiness guard short-circuits
and nothing is raised; with a required role, 403 is raised exactly when the
principal's role is neither the required role nor admin. -/
def check_user_permission (current_user : User) (required_role : Option UserRole) :
    Except HTTPException Unit :=
  match required_role with
  | none => .ok ()
  | some r =>
    if current_user.role ≠ r ∧ current_user.role ≠ UserRole.admin then
      .error insufficientPermissions
    else .ok ()

/-! ## Task CRUD endpoints (src/main.py lines 410-500). -/

/-- The HTTPException raised by get_task / update_task / delete_task when the
owner-filtered query finds no row: 404, Task not found. -/
def taskNotFound : HTTPException :=
  { status_code := 404, detail := "Task not found" }

/-- The query shared by get_task, update_task, complete_task and delete_task
in src/main.py: filter(Task.id == task_id, Task.owner_id == current_user.id)
followed by first().  The owner filter is applied for every caller, the
caller's role is never consulted. -/
def findOwnedTask (task_id : Nat) (current_user : User) (db : DB) : Option DbTask :=
  db.tasks.find? (fun t => t.id == task_id && t.owner_id == current_user.id)

/-- Models get_task in src/main.py: the owner-filtered lookup, 404 when it
finds nothing, otherwise the task. -/
def get_task (task_id : Nat) (current_user : User) (db : DB) : Except HTTPException DbTask :=
  match findOwnedTask task_id current_user db with
  | none => .error taskNotFound
  | some t => .ok t

/-- Models the TaskUpdate pydantic model in src/main.py together with
dict(exclude_unset=True): an outer none means the field was not supplied and
is skipped; for description and due_date an explicitly supplied null is the
inner none. -/
structure TaskUpdate where
  title : Option String := none
  description : Option (Option String) := none
  status : Option TaskStatus := none
  priority : Option TaskPriority := none
  completed : Option Bool := none
  due_date : Option (Option Nat) := none
deriving DecidableEq, Repr

/-- The setattr loop of update_task in src/main.py: each supplied field
overwrites the row's field, unsupplied fields are untouched. -/
def applyTaskUpdate (t : DbTask) (u : TaskUpdate) : DbTask :=
  { t with
    title := u.title.getD t.title
    description := u.description.getD t.description
    status := u.status.getD t.status
    priority := u.priority.getD t.priority
    completed := u.completed.getD t.completed
    due_date := u.due_date.getD t.due_date }

/-- Models update_task in src/main.py: owner-filtered lookup, 404 when it
finds nothing, otherwise apply the supplied fields, refresh updated_at to
utcnow(), and commit the mutated row. -/
def update_task (task_id : Nat) (task_data : TaskUpdate) (current_user : User)
    (db : DB) (now : Nat) : Except HTTPException (DbTask × DB) :=
  match findOwnedTask task_id current_user db with
  | none => .error taskNotFound
  | some t =>
    let t2 := { applyTaskUpdate t task_data with updated_at := now }
    .ok (t2, { db with tasks := db.tasks.map (fun x => if x.id == t.id then t2 else x) })

/-- Models delete_task in src/main.py: owner-filtered lookup, 404 when it
finds nothing, otherwise the row is deleted and the commit returns 204 with
no body. -/
def delete_task (task_id : Nat) (current_user : User) (db : DB) : Except HTTPException DB :=
  match findOwnedTask task_id current_user db with
  | none => .error taskNotFound
  | some t => .ok { db with tasks := db.tasks.filter (fun x => x.id ≠ t.id) }

/-! ## Registration (src/main.py lines 272-306). -/

/-- The UserRegister pydantic model in src/main.py (validated fields only;
format validation happens before the handler runs and is out of scope). -/
structure UserRegister where
  email : String
  username : String
  password : String
deriving DecidableEq, Repr

/-- The HTTPException raised by register when the existing row matched by
email: 400, Email already registered. -/
def emailRegistered : HTTPException :=
  { status_code := 400, detail := "Email already registered" }

/-- The HTTPException raised by register when the existing row matched by
username only: 400, Username already taken. -/
def usernameTaken : HTTPException :=
  { status_code := 400, detail := "Username already taken" }

/-- The autoincrement primary key: one more than the largest id in the users
table. -/
def nextUserId (db : DB) : Nat :=
  db.users.foldl (fun m u => max m u.id) 0 + 1

/-- Models register in src/main.py: first() over
filter((User.email == email) | (User.username == username)); if a row is
found, 400 Email already registered when its email matches, otherwise 400
Username already taken, and nothing is written; otherwise the new row is
added with role USER, the column defaults is_active=true and
created_at/updated_at=utcnow(), and committed.  The bcrypt salt drawn inside
get_password_hash is the explicit salt argument. -/
def register (user_data : UserRegister) (db : DB) (now : Nat) (salt : Nat) :
    Except HTTPException (User × DB) :=
  match db.users.find? (fun u => u.email == user_data.email || u.username == user_data.username) with
  | some existing =>
    if existing.email == user_data.email then .error emailRegistered
    else .error usernameTaken
  | none =>
    let new_user : User :=
      { id := nextUserId db
        email := user_data.email
        username := user_data.username
        hashed_password := get_password_hash user_data.password salt
        role := UserRole.user
        is_active := true
        created_at := now
        updated_at := now }
    .ok (new_user, { db with users := db.users ++ [new_user] })

/-! ## Admin user deletion (src/main.py lines 517-543). -/

/-- The HTTPException raised by delete_user on an attempt at self-deletion:
400, Cannot delete your own account. -/
def cannotDeleteSelf : HTTPException :=
  { status_code := 400, detail := "Cannot delete your own account" }

/-- The HTTPException raised by delete_user when no row has the id: 404,
User not found. -/
def adminUserNotFound : HTTPException :=
  { status_code := 404, detail := "User not found" }

/-- Models delete_user in src/main.py: check_user_permission against ADMIN,
then 400 when user_id equals the caller's own id, then lookup by id with 404
when absent, otherwise the row is deleted (the relationship cascade also
removes the user's tasks) and committed. -/
def delete_user (user_id : Nat) (current_user : User) (db : DB) : Except HTTPException DB :=
  match check_user_permission current_user (some UserRole.admin) with
  | .error e => .error e
  | .ok _ =>
    if user_id == current_user.id then .error cannotDeleteSelf
    else
      match db.users.find? (fun u => u.id == user_id) with
      | none => .error adminUserNotFound
      | some _ =>
        .ok { users := db.users.filter (fun x => x.id ≠ user_id),
              tasks := db.tasks.filter (fun t => t.owner_id ≠ user_id) }

/-! ## Concrete fixtures used by witnesses and counterexamples. -/

/-- A stored admin row with id 1. -/
def adminRoot : User :=
  ⟨1, "root@example.com", "root", "$2b$12$1$rootpw", UserRole.admin, true, 0, 0⟩

/-- A stored ordinary-user row with id 2. -/
def bobUser : User :=
  ⟨2, "bob@example.com", "bob", "$2b$12$2$bobpw", UserRole.user, true, 0, 0⟩

/-- A task row owned by user 2. -/
def bobsTask : DbTask :=
  ⟨10, "write report", none, TaskStatus.pending, TaskPriority.medium, false, none, 2, 0, 0⟩

/-- A database holding the admin, bob, and the task owned by bob. -/
def exDB : DB := ⟨[adminRoot, bobUser], [bobsTask]⟩

/-- A stored ordinary-user row with id 3, initially active. -/
def aliceUser : User :=
  ⟨3, "alice@example.com", "alice", "$2b$12$3$alicepw", UserRole.user, true, 0, 0⟩

/-- A database holding only alice. -/
def aliceDB : DB := ⟨[aliceUser], []⟩

/-- A validly signed, unexpired token for subject 3 (alice). -/
def aliceTok : Token := ⟨⟨some 3, some "alice", some "user"⟩, 100, true⟩

/-- A token whose signature does not verify. -/
def forgedTok : Token := ⟨⟨some 7, none, none⟩, 100, false⟩

/-- A validly signed, unexpired token whose subject 7 matches no stored row. -/
def ghostTok : Token := ⟨⟨some 7, none, none⟩, 100, true⟩

/-! ## Theorems. -/

/-- Claim C10: check_user_permission called with its None default for
required_role always passes without raising, for principals of every role
including guest; its Forbidden (403) branch is reachable exactly when a
required role is explicitly supplied and the principal role is neither that
role nor admin. -/
theorem c10_permission_default (current_user : User) (req : Option UserRole) :
    check_user_permission current_user none = .ok () ∧
    (check_user_permission current_user req = .error insufficientPermissions ↔
      ∃ r, req = some r ∧ current_user.role ≠ r ∧ current_user.role ≠ UserRole.admin) := by
  refine ⟨rfl, ?_⟩
  cases req with
  | none => simp [check_user_permission]
  | some r =>
    by_cases h : current_user.role ≠ r ∧ current_user.role ≠ UserRole.admin
    · simp [check_user_permission, if_pos h, h]
    · simp only [check_user_permission, if_neg h]
      simp only [not_and_or, not_not] at h
      constructor
      · intro hcontra
        exact absurd hcontra (by simp)
      · rintro ⟨r2, hr2, hne, hadm⟩
        cases hr2
        rcases h with h | h
        · exact absurd h hne
        · exact absurd h hadm

/-- Claim C3: for every issued token, the exp claim equals the issue time
plus the ttl, and jwt.decode fails with ExpiredSignatureError exactly when
the decode-time clock is at or past exp. -/
theorem c3_expiry (data : Claims) (ttl issued now : Nat) :
    (create_access_token data (some ttl) issued).exp = issued + ttl ∧
    (jwtDecode (create_access_token data (some ttl) issued) now = .error JwtError.expired ↔
      issued + ttl ≤ now) := by
  refine ⟨rfl, ?_⟩
  by_cases h : issued + ttl ≤ now
  · simp [create_access_token, jwtDecode, h]
  · simp [create_access_token, jwtDecode, h]

/-- Claim C8 (amended): for every claim set carrying a subject id and every
positive ttl, decoding the issued token at issue time succeeds and returns
the sub, username and role claims unchanged. -/
theorem c8_roundtrip (uid : Nat) (un rl : Option String) (ttl now : Nat) (h : 0 < ttl) :
    decode_token (create_access_token ⟨some uid, un, rl⟩ (some ttl) now) now =
      .ok ⟨some uid, un, rl⟩ := by
  have hx : ¬ (now + ttl ≤ now) := by omega
  simp [decode_token, create_access_token, jwtDecode, hx]

/-- Claim C8, witness: the round trip applied to a concrete claim set and
ttl 60. -/
theorem c8_witness :
    decode_token (create_access_token ⟨some 7, some "alice", some "user"⟩ (some 60) 0) 0 =
      .ok ⟨some 7, some "alice", some "user"⟩ :=
  c8_roundtrip 7 (some "alice") (some "user") 60 0 (by decide)

/-- Claim C8, counterexample: a claim set without a sub claim is issued with
a positive ttl, yet decoding it immediately fails with 401 instead of
returning the claims unchanged. -/
theorem c8_counterexample :
    0 < 60 ∧
    decode_token (create_access_token ⟨none, some "u", some "user"⟩ (some 60) 0) 0 =
      .error invalidCredentials :=
  ⟨by decide, rfl⟩

/-- Claim C9 (amended): verify_password returns a boolean for a stored hash
that parses as a bcrypt hash, and raises UnknownHashError (rather than
returning false) for every malformed stored hash. -/
theorem c9_verify_malformed (p h : String) :
    ((parseBcrypt h).isSome = true → ∃ b, verify_password p h = .ok b) ∧
    (parseBcrypt h = none → verify_password p h = .error PasslibError.unknownHash) := by
  constructor
  · intro hs
    obtain ⟨s, hsome⟩ := Option.isSome_iff_exists.mp hs
    exact ⟨h == bcryptHashStr s p, by simp [verify_password, cryptContextVerify, hsome]⟩
  · intro hn
    simp [verify_password, cryptContextVerify, hn]

/-- Claim C9, witness: a well-formed stored hash yields a boolean, and the
malformed stored hash nothash raises UnknownHashError. -/
theorem c9_witness :
    (∃ b, verify_password "pw" "$2b$12$3$pw" = .ok b) ∧
    verify_password "pw" "nothash" = .error PasslibError.unknownHash :=
  ⟨(c9_verify_malformed "pw" "$2b$12$3$pw").1 rfl,
   (c9_verify_malformed "pw" "nothash").2 rfl⟩

/-- Claim C9, counterexample: on the malformed stored hash nothash,
verify_password raises UnknownHashError; it does not return the boolean
false the claim requires. -/
theorem c9_counterexample :
    verify_password "password" "nothash" = .error PasslibError.unknownHash ∧
    verify_password "password" "nothash" ≠ .ok false := by
  have h1 : verify_password "password" "nothash" = .error PasslibError.unknownHash := rfl
  refine ⟨h1, ?_⟩
  rw [h1]
  intro hcontra
  exact Except.noConfusion hcontra

/-- Helper: resolving with a successfully decoded token whose subject is
found as an inactive row yields the 403 Inactive-user error. -/
theorem resolve_inactive_aux (t : Token) (db : DB) (now : Nat) (td : TokenData) (u : User)
    (hdec : decode_token t now = .ok td)
    (hfind : db.users.find? (fun x => td.user_id == some x.id) = some u)
    (hin : u.is_active = false) :
    get_current_user t db now = .error inactiveUser := by
  simp [get_current_user, hdec, hfind, hin]

/-- Helper: any row of the deactivated store found under a predicate that
forces its id to be the deactivated id is inactive. -/
theorem deactivate_found_inactive (db : DB) (uid : Nat) (u : User) (p : User → Bool)
    (hp : ∀ x, p x = true → x.id = uid)
    (hfind : (deactivate db uid).users.find? p = some u) :
    u.is_active = false := by
  have hmem : u ∈ (deactivate db uid).users := List.mem_of_find?_eq_some hfind
  have hpu : p u = true := List.find?_some hfind
  have huid : u.id = uid := hp u hpu
  simp only [deactivate, List.mem_map] at hmem
  obtain ⟨x, _, hx⟩ := hmem
  by_cases hxid : x.id = uid
  · rw [if_pos hxid] at hx
    rw [← hx]
  · rw [if_neg hxid] at hx
    rw [← hx] at huid
    exact absurd huid hxid

/-- Claim C2: when decode succeeds and the subject resolves to a stored row
with is_active false, identity resolution fails with the AccountInactive
signal (403 Inactive user); and because the role and active state are
re-read from the current row, resolving the same unaltered token against a
store in which that account was deactivated fails the same way. -/
theorem c2_inactive (t : Token) (db : DB) (now uid : Nat) (td : TokenData)
    (hdec : decode_token t now = .ok td) (hsub : td.user_id = some uid) :
    (∀ u, db.users.find? (fun x => td.user_id == some x.id) = some u → u.is_active = false →
      get_current_user t db now = .error inactiveUser) ∧
    (∀ u, (deactivate db uid).users.find? (fun x => td.user_id == some x.id) = some u →
      get_current_user t (deactivate db uid) now = .error inactiveUser) := by
  constructor
  · intro u hfind hin
    exact resolve_inactive_aux t db now td u hdec hfind hin
  · intro u hfind
    have hin : u.is_active = false := by
      refine deactivate_found_inactive db uid u _ ?_ hfind
      intro x hx
      rw [hsub] at hx
      have h2 : uid = x.id := by
        simpa using hx
      exact h2.symm
    exact resolve_inactive_aux t (deactivate db uid) now td u hdec hfind hin

/-- Claim C2, witness: a token issued for the active user alice keeps
resolving to the AccountInactive failure once alice has been deactivated,
though the token string is unchanged and unexpired. -/
theorem c2_witness :
    get_current_user aliceTok (deactivate aliceDB 3) 0 = .error inactiveUser :=
  (c2_inactive aliceTok aliceDB 0 3 ⟨some 3, some "alice", some "user"⟩ rfl rfl).2
    ⟨3, "alice@example.com", "alice", "$2b$12$3$alicepw", UserRole.user, false, 0, 0⟩ rfl

/-- Claim C4 (amended): a decode failure and a valid token whose subject
matches no stored row both fail with status 401, but with different detail
strings (Invalid authentication credentials versus User not found), so the
two cases are distinguishable by the response body though not by the status
code. -/
theorem c4_error_signals (t : Token) (db : DB) (now : Nat) :
    (∀ e, decode_token t now = .error e →
      e = invalidCredentials ∧ get_current_user t db now = .error invalidCredentials) ∧
    (∀ td, decode_token t now = .ok td →
      db.users.find? (fun x => td.user_id == some x.id) = none →
      get_current_user t db now = .error userGone) ∧
    userGone.status_code = 401 ∧ invalidCredentials.status_code = 401 ∧
    userGone ≠ invalidCredentials := by
  refine ⟨?_, ?_, rfl, rfl, by decide⟩
  · intro e he
    have heq : e = invalidCredentials := by
      simp only [decode_token] at he
      split at he
      · exact ((Except.error.injEq _ _).mp he).symm
      · split at he
        · exact ((Except.error.injEq _ _).mp he).symm
        · exact Except.noConfusion he
    subst heq
    exact ⟨rfl, by simp [get_current_user, he]⟩
  · intro td hdec hnone
    simp [get_current_user, hdec, hnone]

/-- Claim C4, witness: at a concrete unexpired valid token whose subject 7
matches no row of an empty store, resolution fails with 401 User not
found. -/
theorem c4_witness :
    get_current_user ghostTok ⟨[], []⟩ 0 = .error userGone :=
  ((c4_error_signals ghostTok ⟨[], []⟩ 0).2.1) ⟨some 7, none, none⟩ rfl rfl

/-- Claim C4, counterexample: the decode-failure error and the
missing-record error are not identical — same 401 status, different detail
strings — so a caller can distinguish token invalid from token valid but
user gone. -/
theorem c4_counterexample :
    get_current_user forgedTok ⟨[], []⟩ 0 = .error invalidCredentials ∧
    get_current_user ghostTok ⟨[], []⟩ 0 = .error userGone ∧
    invalidCredentials ≠ userGone :=
  ⟨rfl, rfl, by decide⟩

/-- Claim C1 (amended): the task read, update and delete handlers apply the
owner filter for every caller and never consult the role: each of the three
operations succeeds iff the store holds a task with the given id owned by
the requesting principal, and when it holds none — for an admin as for
anyone else — all three fail with 404 Task not found. -/
theorem c1_owner_only (cu : User) (tid : Nat) (db : DB) (data : TaskUpdate) (now : Nat) :
    ((∃ r, get_task tid cu db = .ok r) ↔
      ∃ t ∈ db.tasks, t.id = tid ∧ t.owner_id = cu.id) ∧
    ((∃ r, update_task tid data cu db now = .ok r) ↔
      ∃ t ∈ db.tasks, t.id = tid ∧ t.owner_id = cu.id) ∧
    ((∃ r, delete_task tid cu db = .ok r) ↔
      ∃ t ∈ db.tasks, t.id = tid ∧ t.owner_id = cu.id) ∧
    ((∀ t ∈ db.tasks, t.id = tid → t.owner_id ≠ cu.id) →
      get_task tid cu db = .error taskNotFound ∧
      update_task tid data cu db now = .error taskNotFound ∧
      delete_task tid cu db = .error taskNotFound) := by
  have hiff : (findOwnedTask tid cu db).isSome ↔
      ∃ t ∈ db.tasks, t.id = tid ∧ t.owner_id = cu.id := by
    rw [findOwnedTask, List.find?_isSome]
    constructor
    · rintro ⟨x, hx, hp⟩
      simp only [Bool.and_eq_true, beq_iff_eq] at hp
      exact ⟨x, hx, hp.1, hp.2⟩
    · rintro ⟨x, hx, h1, h2⟩
      exact ⟨x, hx, by simp [h1, h2]⟩
  refine ⟨?_, ?_, ?_, ?_⟩
  · rw [← hiff]
    cases h : findOwnedTask tid cu db <;> simp [get_task, h]
  · rw [← hiff]
    cases h : findOwnedTask tid cu db <;> simp [update_task, h]
  · rw [← hiff]
    cases h : findOwnedTask tid cu db <;> simp [delete_task, h]
  · intro h
    have hf : findOwnedTask tid cu db = none := by
      rw [findOwnedTask, List.find?_eq_none]
      intro t ht hp
      simp only [Bool.and_eq_true, beq_iff_eq] at hp
      exact h t ht hp.1 hp.2
    exact ⟨by simp [get_task, hf], by simp [update_task, hf], by simp [delete_task, hf]⟩

/-- Claim C1, witness: the owner (user 2) successfully reads task 10, while
the admin principal, who owns no task with id 10, receives 404 from all
three operations on that same task. -/
theorem c1_witness :
    (∃ r, get_task 10 bobUser exDB = .ok r) ∧
    get_task 10 adminRoot exDB = .error taskNotFound ∧
    update_task 10 {} adminRoot exDB 0 = .error taskNotFound ∧
    delete_task 10 adminRoot exDB = .error taskNotFound :=
  ⟨(c1_owner_only bobUser 10 exDB {} 0).1.mpr ⟨bobsTask, by decide, by decide, by decide⟩,
   (c1_owner_only adminRoot 10 exDB {} 0).2.2.2 (by decide)⟩

/-- Claim C1, counterexample: a task owned by user 2 exists in the store,
the requesting principal has role admin and a different id, yet reading,
updating and deleting it all fail — and they fail with 404 Task not found,
not with a 403 Forbidden. -/
theorem c1_counterexample :
    adminRoot.role = UserRole.admin ∧
    bobsTask ∈ exDB.tasks ∧
    bobsTask.owner_id ≠ adminRoot.id ∧
    get_task bobsTask.id adminRoot exDB = .error taskNotFound ∧
    update_task bobsTask.id {} adminRoot exDB 0 = .error taskNotFound ∧
    delete_task bobsTask.id adminRoot exDB = .error taskNotFound ∧
    taskNotFound.status_code = 404 := by
  refine ⟨rfl, by decide, by decide, rfl, rfl, rfl, rfl⟩

/-- Claim C6 (amended): an admin principal can delete any existing user
except their own account: self-deletion fails with 400 Cannot delete your
own account even though the record exists, a missing id fails with 404, and
any other existing user is deleted successfully. -/
theorem c6_admin_delete (user_id : Nat) (cu : User) (db : DB)
    (hadm : cu.role = UserRole.admin) :
    (user_id = cu.id → delete_user user_id cu db = .error cannotDeleteSelf) ∧
    (user_id ≠ cu.id → db.users.find? (fun u => u.id == user_id) = none →
      delete_user user_id cu db = .error adminUserNotFound) ∧
    (user_id ≠ cu.id → ∀ u, db.users.find? (fun u => u.id == user_id) = some u →
      delete_user user_id cu db =
        .ok { users := db.users.filter (fun x => x.id ≠ user_id),
              tasks := db.tasks.filter (fun t => t.owner_id ≠ user_id) }) := by
  have hperm : check_user_permission cu (some UserRole.admin) = .ok () := by
    simp [check_user_permission, hadm]
  refine ⟨?_, ?_, ?_⟩
  · intro hself
    simp [delete_user, hperm, hself]
  · intro hne hnone
    simp [delete_user, hperm, hne, hnone]
  · intro hne u hfind
    simp [delete_user, hperm, hne, hfind]

/-- Claim C6, witness: the admin with id 1 deletes the existing user with
id 2, which succeeds and removes that row and the tasks it owns. -/
theorem c6_witness :
    delete_user 2 adminRoot exDB =
      .ok { users := exDB.users.filter (fun x => x.id ≠ 2),
            tasks := exDB.tasks.filter (fun t => t.owner_id ≠ 2) } :=
  (c6_admin_delete 2 adminRoot exDB rfl).2.2 (by decide) bobUser (by decide)

/-- Claim C6, counterexample: the admin record with id 1 exists in the
store, yet the admin deletion of user id 1 (the caller themself) fails with
400 Cannot delete your own account — a failure on an existing record, which
the claim rules out. -/
theorem c6_counterexample :
    adminRoot.role = UserRole.admin ∧
    exDB.users.find? (fun u => u.id == 1) = some adminRoot ∧
    delete_user 1 adminRoot exDB = .error cannotDeleteSelf ∧
    cannotDeleteSelf.status_code = 400 := by
  refine ⟨rfl, by decide, rfl, rfl⟩

/-- Claim C5: starting from a store in which neither the email nor the
username of the first request is taken, the first registration succeeds; a
second registration with the same email then fails with a 400 Duplicate
error and writes nothing, and the store after both attempts holds exactly
one record with that email. -/
theorem c5_duplicate_email (d1 d2 : UserRegister) (db : DB) (now1 now2 salt1 salt2 : Nat)
    (hemail : d2.email = d1.email)
    (hfresh : db.users.find?
      (fun u => u.email == d1.email || u.username == d1.username) = none) :
    ∃ u1 db1, register d1 db now1 salt1 = .ok (u1, db1) ∧
      (∃ err, register d2 db1 now2 salt2 = .error err ∧ err.status_code = 400) ∧
      (db1.users.filter (fun u => u.email == d1.email)).length = 1 := by
  refine ⟨⟨nextUserId db, d1.email, d1.username, get_password_hash d1.password salt1,
      UserRole.user, true, now1, now1⟩,
    ⟨db.users ++ [⟨nextUserId db, d1.email, d1.username,
      get_password_hash d1.password salt1, UserRole.user, true, now1, now1⟩],
      db.tasks⟩, ?_, ?_, ?_⟩
  · unfold register
    rw [hfresh]
  · have hpred : (fun (u : User) => u.email == d2.email || u.username == d2.username)
        ⟨nextUserId db, d1.email, d1.username, get_password_hash d1.password salt1,
          UserRole.user, true, now1, now1⟩ = true := by
      simp [hemail]
    have happ : (db.users ++ [(⟨nextUserId db, d1.email, d1.username,
        get_password_hash d1.password salt1, UserRole.user, true, now1, now1⟩ : User)]).find?
          (fun u => u.email == d2.email || u.username == d2.username) =
        ((db.users.find? (fun u => u.email == d2.email || u.username == d2.username)).or
          (some ⟨nextUserId db, d1.email, d1.username, get_password_hash d1.password salt1,
            UserRole.user, true, now1, now1⟩)) := by
      rw [List.find?_append]
      congr 1
      simp
      intro h
      exact absurd hemail.symm h
    rcases hcase : db.users.find? (fun u => u.email == d2.email || u.username == d2.username)
      with _ | v
    · refine ⟨emailRegistered, ?_, rfl⟩
      unfold register
      rw [happ, hcase]
      simp [hemail]
    · refine ⟨if v.email == d2.email then emailRegistered else usernameTaken, ?_, ?_⟩
      · unfold register
        rw [happ, hcase]
        cases hb : (v.email == d2.email) <;> simp [hb]
      · cases hb : (v.email == d2.email) <;> simp [hb, emailRegistered, usernameTaken]
  · have hnil : db.users.filter (fun u => u.email == d1.email) = [] := by
      rw [List.filter_eq_nil_iff]
      intro a ha
      have hna := List.find?_eq_none.mp hfresh a ha
      simp only [Bool.or_eq_true, beq_iff_eq, not_or] at hna
      simp only [beq_iff_eq]
      exact hna.1
    simp [List.filter_append, hnil]

/-- Claim C5, witness: registering alice at a fresh store succeeds; a second
registration with the same email fails with a 400 error and the store holds
exactly one record with that email. -/
theorem c5_witness :
    ∃ u1 db1, register ⟨"a@x.com", "alice", "password1"⟩ ⟨[], []⟩ 0 1 = .ok (u1, db1) ∧
      (∃ err, register ⟨"a@x.com", "alice2", "password2"⟩ db1 5 2 = .error err ∧
        err.status_code = 400) ∧
      (db1.users.filter (fun u => u.email == "a@x.com")).length = 1 :=
  c5_duplicate_email ⟨"a@x.com", "alice", "password1"⟩ ⟨"a@x.com", "alice2", "password2"⟩
    ⟨[], []⟩ 0 5 1 2 rfl rfl

/-- Helper: the digit character of a remainder below ten is a decimal
digit. -/
theorem digitChar_isDigit (m : Nat) (h : m < 10) : (Nat.digitChar m).isDigit = true := by
  interval_cases m <;> decide

/-- Helper: the code point of the digit character of a remainder below ten
is the remainder plus 48. -/
theorem digitChar_toNat (m : Nat) (h : m < 10) : (Nat.digitChar m).toNat = m + 48 := by
  interval_cases m <;> decide

/-- Helper: the digit accumulator of Nat.toDigitsCore only appends. -/
theorem toDigitsCore_acc (fuel n : Nat) (ds : List Char) :
    Nat.toDigitsCore 10 fuel n ds = Nat.toDigitsCore 10 fuel n [] ++ ds := by
  induction fuel generalizing n ds with
  | zero => simp [Nat.toDigitsCore]
  | succ f ih =>
    simp only [Nat.toDigitsCore]
    by_cases h : n / 10 = 0
    · rw [if_pos h, if_pos h]
      simp
    · rw [if_neg h, if_neg h,
        ih (n / 10) (Nat.digitChar (n % 10) :: ds),
        ih (n / 10) [Nat.digitChar (n % 10)]]
      simp

/-- Helper: every character Nat.toDigitsCore in base ten adds to a list of
decimal digits is a decimal digit. -/
theorem toDigitsCore_digits (fuel n : Nat) (ds : List Char)
    (hds : ∀ c ∈ ds, c.isDigit = true) :
    ∀ c ∈ Nat.toDigitsCore 10 fuel n ds, c.isDigit = true := by
  induction fuel generalizing n ds with
  | zero => simpa [Nat.toDigitsCore] using hds
  | succ f ih =>
    intro c hc
    simp only [Nat.toDigitsCore] at hc
    have hdig : (Nat.digitChar (n % 10)).isDigit = true :=
      digitChar_isDigit (n % 10) (Nat.mod_lt n (by decide))
    by_cases h : n / 10 = 0
    · rw [if_pos h] at hc
      rcases List.mem_cons.mp hc with hc | hc
      · rw [hc]; exact hdig
      · exact hds c hc
    · rw [if_neg h] at hc
      refine ih (n / 10) (Nat.digitChar (n % 10) :: ds) ?_ c hc
      intro c2 hc2
      rcases List.mem_cons.mp hc2 with hc2 | hc2
      · rw [hc2]; exact hdig
      · exact hds c2 hc2

/-- Helper: the decimal value of the digit list Nat.toDigitsCore produces,
on top of an accumulator. -/
theorem toDigitsCore_val (fuel : Nat) :
    ∀ n a, n < fuel →
      digitsVal a (Nat.toDigitsCore 10 fuel n []) =
        a * 10 ^ (Nat.toDigitsCore 10 fuel n []).length + n := by
  induction fuel with
  | zero => intro n a h; omega
  | succ f ih =>
    intro n a _
    simp only [Nat.toDigitsCore]
    have hd : (Nat.digitChar (n % 10)).toNat = n % 10 + 48 :=
      digitChar_toNat (n % 10) (Nat.mod_lt n (by decide))
    by_cases h0 : n / 10 = 0
    · rw [if_pos h0]
      simp only [digitsVal, List.foldl_cons, List.foldl_nil, List.length_cons,
        List.length_nil, hd]
      have hlt : n < 10 := by omega
      simp [Nat.mod_eq_of_lt hlt]
    · rw [if_neg h0]
      rw [toDigitsCore_acc f (n / 10) [Nat.digitChar (n % 10)]]
      have hrec : n / 10 < f := by
        have h1 : n / 10 < n := Nat.div_lt_self (by omega) (by decide)
        omega
      have ihv := ih (n / 10) a hrec
      simp only [digitsVal, List.foldl_append, List.foldl_cons, List.foldl_nil,
        List.length_append, List.length_cons, List.length_nil, hd]
      simp only [digitsVal] at ihv
      rw [ihv]
      rw [pow_succ]
      ring_nf
      omega

/-- Helper: the decimal value of the base-ten digit string of n is n. -/
theorem digitsVal_toDigits (n : Nat) : digitsVal 0 (Nat.toDigits 10 n) = n := by
  have h := toDigitsCore_val (n + 1) n 0 (by omega)
  simpa [Nat.toDigits] using h

/-- Helper: Nat.toDigitsCore returns the empty list only when handed one. -/
theorem toDigitsCore_eq_nil (fuel : Nat) :
    ∀ n (ds : List Char), Nat.toDigitsCore 10 fuel n ds = [] → ds = [] := by
  induction fuel with
  | zero => intro n ds h; simpa [Nat.toDigitsCore] using h
  | succ f ih =>
    intro n ds h
    simp only [Nat.toDigitsCore] at h
    by_cases h0 : n / 10 = 0
    · rw [if_pos h0] at h
      exact absurd h (by simp)
    · rw [if_neg h0] at h
      have := ih (n / 10) (Nat.digitChar (n % 10) :: ds) h
      exact absurd this (by simp)

/-- Helper: the base-ten digit string of a number is never empty. -/
theorem toDigits_ne_nil (n : Nat) : Nat.toDigits 10 n ≠ [] := by
  intro h
  simp only [Nat.toDigits, Nat.toDigitsCore] at h
  by_cases h0 : n / 10 = 0
  · rw [if_pos h0] at h
    exact absurd h (by simp)
  · rw [if_neg h0] at h
    have := toDigitsCore_eq_nil n (n / 10) (Nat.digitChar (n % 10) :: []) h
    exact absurd this (by simp)

/-- Helper: the character data of Nat.repr is the base-ten digit string. -/
theorem repr_data_eq (n : Nat) : (Nat.repr n).data = Nat.toDigits 10 n := rfl

/-- Helper: on a nonempty all-digit string, digitsToNat? returns its decimal
value. -/
theorem digitsToNat?_eq_val (cs : List Char) (hne : cs ≠ [])
    (hd : ∀ c ∈ cs, c.isDigit = true) :
    digitsToNat? cs = some (digitsVal 0 cs) := by
  have aux : ∀ (l : List Char) (a : Nat), (∀ c ∈ l, c.isDigit = true) →
      l.foldl
        (fun acc c =>
          match acc with
          | none => none
          | some n => if c.isDigit then some (n * 10 + (c.toNat - 48)) else none)
        (some a) = some (digitsVal a l) := by
    intro l
    induction l with
    | nil => intro a _; simp [digitsVal]
    | cons c l ih =>
      intro a hall
      simp only [List.foldl_cons]
      rw [if_pos (hall c (by simp))]
      rw [ih (a * 10 + (c.toNat - 48)) (fun c2 hc2 => hall c2 (by simp [hc2]))]
      rfl
  cases cs with
  | nil => exact absurd rfl hne
  | cons c l =>
    simp only [digitsToNat?, List.isEmpty_cons, if_false]
    exact aux (c :: l) 0 hd

/-- Helper: the character data of the modelled bcrypt hash string is the
format marker, the salt digits, a separator, and the password data. -/
theorem bcryptHashStr_data (s : Nat) (p : String) :
    (bcryptHashStr s p).data =
      "$2b$12$".data ++ ((Nat.repr s).data ++ (Char.ofNat 36 :: p.data)) := by
  show ((("$2b$12$" ++ toString s) ++ "$") ++ p).data = _
  rw [String.data_append, String.data_append, String.data_append]
  rw [show (toString s : String) = Nat.repr s from rfl]
  rw [show ("$" : String).data = [Char.ofNat 36] from rfl]
  simp [List.append_assoc]

/-- Helper: no decimal digit is the separator character. -/
theorem digit_ne_dollar (c : Char) (hc : c.isDigit = true) :
    (decide (c ≠ Char.ofNat 36)) = true := by
  simp only [decide_eq_true_eq]
  intro heq
  rw [heq] at hc
  exact absurd hc (by decide)

/-- Helper: parsing the modelled bcrypt hash string recovers the salt it
was produced with. -/
theorem parseBcrypt_roundtrip (s : Nat) (p : String) :
    parseBcrypt (bcryptHashStr s p) = some s := by
  have hds : ∀ c ∈ (Nat.repr s).data, c.isDigit = true := by
    rw [repr_data_eq]
    exact toDigitsCore_digits (s + 1) s [] (by simp)
  have hnd : ∀ c ∈ (Nat.repr s).data, (decide (c ≠ Char.ofNat 36)) = true :=
    fun c hc => digit_ne_dollar c (hds c hc)
  simp only [parseBcrypt, bcryptHashStr_data]
  rw [if_pos (List.isPrefixOf_iff_prefix.mpr (List.prefix_append _ _))]
  rw [List.drop_left' (by decide)]
  rw [List.takeWhile_append_of_pos hnd]
  rw [List.takeWhile_cons_of_neg (by decide)]
  rw [List.append_nil]
  rw [digitsToNat?_eq_val _ (by rw [repr_data_eq]; exact toDigits_ne_nil s) hds]
  rw [repr_data_eq, digitsVal_toDigits]

/-- Helper: the base-ten representation determines the number. -/
theorem repr_data_inj (s1 s2 : Nat) (h : (Nat.repr s1).data = (Nat.repr s2).data) :
    s1 = s2 := by
  have h2 := congrArg (digitsVal 0) h
  rw [repr_data_eq, repr_data_eq, digitsVal_toDigits, digitsVal_toDigits] at h2
  exact h2

/-- Helper: with the salt fixed, the modelled hash string determines the
password. -/
theorem bcryptHashStr_inj_password (s : Nat) (p1 p2 : String)
    (h : bcryptHashStr s p1 = bcryptHashStr s p2) : p1 = p2 := by
  have hd := congrArg String.data h
  rw [bcryptHashStr_data, bcryptHashStr_data] at hd
  have h1 := List.append_cancel_left hd
  have h2 := List.append_cancel_left h1
  exact String.ext (List.cons_injective h2)

/-- Helper: with the password fixed, the modelled hash string determines the
salt. -/
theorem bcryptHashStr_inj_salt (p : String) (s1 s2 : Nat)
    (h : bcryptHashStr s1 p = bcryptHashStr s2 p) : s1 = s2 := by
  have hd := congrArg String.data h
  rw [bcryptHashStr_data, bcryptHashStr_data] at hd
  have h1 := List.append_cancel_left hd
  have hnd1 : ∀ c ∈ (Nat.repr s1).data, (decide (c ≠ Char.ofNat 36)) = true :=
    fun c hc => digit_ne_dollar c
      (by rw [repr_data_eq] at hc; exact toDigitsCore_digits (s1 + 1) s1 [] (by simp) c hc)
  have hnd2 : ∀ c ∈ (Nat.repr s2).data, (decide (c ≠ Char.ofNat 36)) = true :=
    fun c hc => digit_ne_dollar c
      (by rw [repr_data_eq] at hc; exact toDigitsCore_digits (s2 + 1) s2 [] (by simp) c hc)
  have h2 := congrArg (List.takeWhile (fun c => decide (c ≠ Char.ofNat 36))) h1
  rw [List.takeWhile_append_of_pos hnd1, List.takeWhile_append_of_pos hnd2,
    List.takeWhile_cons_of_neg (by decide), List.append_nil, List.append_nil] at h2
  exact repr_data_inj s1 s2 h2

/-- Claim C7: under the embedding of the salted bcrypt hasher (per-call salt
made explicit, digest determining salt and password), verify(p, hash(p))
is true for every password and salt; verify(p2, hash(p1)) is false for
distinct passwords hashed under any salt; and hashing the same password
under the two distinct salts of two calls yields different opaque outputs,
both of which verify against the password. -/
theorem c7_hash_verify (p p1 p2 : String) (s s1 s2 : Nat) :
    verify_password p (get_password_hash p s) = .ok true ∧
    (p1 ≠ p2 → verify_password p2 (get_password_hash p1 s) = .ok false) ∧
    (s1 ≠ s2 → get_password_hash p s1 ≠ get_password_hash p s2 ∧
      verify_password p (get_password_hash p s1) = .ok true ∧
      verify_password p (get_password_hash p s2) = .ok true) := by
  have hok : ∀ (q : String) (t : Nat), verify_password q (get_password_hash q t) = .ok true := by
    intro q t
    simp only [verify_password, cryptContextVerify, get_password_hash, parseBcrypt_roundtrip]
    simp
  refine ⟨hok p s, ?_, ?_⟩
  · intro hne
    simp only [verify_password, cryptContextVerify, get_password_hash, parseBcrypt_roundtrip]
    have hne2 : bcryptHashStr s p1 ≠ bcryptHashStr s p2 :=
      fun heq => hne (bcryptHashStr_inj_password s p1 p2 heq)
    simp [hne2]
  · intro hne
    refine ⟨?_, hok p s1, hok p s2⟩
    intro heq
    exact hne (bcryptHashStr_inj_salt p s1 s2 heq)

/-- Claim C7, witness: a concrete password verifies against its own hash,
a different password does not, and two salts give distinct hashes. -/
theorem c7_witness :
    verify_password "hunter2secret" (get_password_hash "hunter2secret" 5) = .ok true ∧
    verify_password "wrongpass" (get_password_hash "hunter2secret" 5) = .ok false ∧
    get_password_hash "hunter2secret" 5 ≠ get_password_hash "hunter2secret" 6 :=
  ⟨(c7_hash_verify "hunter2secret" "hunter2secret" "wrongpass" 5 5 6).1,
   (c7_hash_verify "hunter2secret" "hunter2secret" "wrongpass" 5 5 6).2.1 (by decide),
   ((c7_hash_verify "hunter2secret" "hunter2secret" "wrongpass" 5 5 6).2.2 (by decide)).1⟩

end TaskApp
